import Mathlib

/-
  Verification development for the BuildMVP construction-business
  administration tool.

  The embedding below translates, into Lean:
    * the database schema and the totals-recalculation triggers of
      migration 001_initial_schema.sql (recalculate_estimate_totals,
      recalculate_invoice_totals),
    * the client-side handlers of the dashboard components
      (handleConvertToInvoice, handleTogglePaid, handleArchive,
      handleSubmit of the estimate and invoice forms, sendEstimateAction,
      the isOverdue derivation of the invoice list and detail views),
    * the per-tenant unique indexes on document numbers.

  Monetary DECIMAL(12,2) / DECIMAL(10,2) / DECIMAL(5,2) values are modelled
  as rationals; assignment to a 2-decimal column is modelled by round2,
  Postgres numeric rounding (half away from zero) at two decimal places.
  DATE columns are modelled as day numbers (days since epoch), timestamps
  as milliseconds since epoch, matching the JavaScript Date arithmetic in
  the components.
-/

/-- Round half away from zero to the nearest integer, as Postgres rounds
numeric values on assignment to a column or variable of smaller scale. -/
def pgRound (q : ℚ) : ℤ :=
  if 0 ≤ q.num then (2 * q.num + (q.den : ℤ)) / (2 * (q.den : ℤ))
  else -((2 * (-q.num) + (q.den : ℤ)) / (2 * (q.den : ℤ)))

/-- Round to two decimal places, half away from zero: the effect of storing
a numeric value into a DECIMAL(12,2) column or plpgsql variable. -/
def round2 (q : ℚ) : ℚ := (pgRound (q * 100) : ℚ) / 100

/-- estimate_status enum of the schema. -/
inductive EstimateStatus
  | draft
  | sent
  | approved
  | declined
  deriving DecidableEq

/-- invoice_status enum of the schema. -/
inductive InvoiceStatus
  | unpaid
  | paid
  deriving DecidableEq

/-- A row of the estimates table (ids as naturals, DATE columns as day
numbers, archived_at as a millisecond timestamp; job_site_address and
archived_at are the columns the application layer reads and writes). -/
structure Estimate where
  id : Nat
  user_id : Nat
  client_id : Option Nat
  estimate_number : String
  title : String
  description : Option String
  status : EstimateStatus
  issue_date : Nat
  valid_until : Option Nat
  subtotal : ℚ
  tax_rate : ℚ
  tax_amount : ℚ
  total : ℚ
  notes : Option String
  job_site_address : Option String
  archived_at : Option Nat
  deriving DecidableEq

/-- A row of the estimate_items table.  The generated column
amount = quantity * unit_price is derived, never stored independently. -/
structure EstimateItem where
  id : Nat
  estimate_id : Nat
  description : String
  quantity : ℚ
  unit : String
  unit_price : ℚ
  sort_order : ℤ
  deriving DecidableEq

/-- The generated amount column of estimate_items. -/
def EstimateItem.amount (it : EstimateItem) : ℚ := it.quantity * it.unit_price

/-- A row of the invoices table. -/
structure Invoice where
  id : Nat
  user_id : Nat
  client_id : Option Nat
  source_estimate_id : Option Nat
  invoice_number : String
  title : String
  description : Option String
  status : InvoiceStatus
  issue_date : Nat
  due_date : Option Nat
  paid_date : Option Nat
  subtotal : ℚ
  tax_rate : ℚ
  tax_amount : ℚ
  total : ℚ
  notes : Option String
  archived_at : Option Nat
  deriving DecidableEq

/-- A row of the invoice_items table. -/
structure InvoiceItem where
  id : Nat
  invoice_id : Nat
  description : String
  quantity : ℚ
  unit : String
  unit_price : ℚ
  sort_order : ℤ
  deriving DecidableEq

/-- The generated amount column of invoice_items. -/
def InvoiceItem.amount (it : InvoiceItem) : ℚ := it.quantity * it.unit_price

/-- A row of the clients table (fields the handlers read). -/
structure ClientRow where
  id : Nat
  user_id : Nat
  name : String
  email : Option String
  phone : Option String
  address : Option String
  deriving DecidableEq

/-- State of the estimates and estimate_items tables. -/
structure EstimateDB where
  estimates : List Estimate
  items : List EstimateItem
  deriving DecidableEq

/-- State of the invoices and invoice_items tables. -/
structure InvoiceDB where
  invoices : List Invoice
  items : List InvoiceItem
  deriving DecidableEq

/-- SELECT COALESCE(SUM(quantity * unit_price), 0) FROM estimate_items
WHERE estimate_id = eid, before the cast to DECIMAL(12,2). -/
def rawEstimateSubtotal (items : List EstimateItem) (eid : Nat) : ℚ :=
  ((items.filter (fun it => it.estimate_id == eid)).map
    (fun it => it.quantity * it.unit_price)).sum

/-- SELECT COALESCE(SUM(quantity * unit_price), 0) FROM invoice_items
WHERE invoice_id = iid, before the cast to DECIMAL(12,2). -/
def rawInvoiceSubtotal (items : List InvoiceItem) (iid : Nat) : ℚ :=
  ((items.filter (fun it => it.invoice_id == iid)).map
    (fun it => it.quantity * it.unit_price)).sum

/-- Body of recalculate_estimate_totals applied to one estimates row:
v_subtotal and v_tax_amount are DECIMAL(12,2) variables, so both
assignments round to two decimals; total = v_subtotal + v_tax_amount. -/
def recalcEstimateDoc (e : Estimate) (items : List EstimateItem) : Estimate :=
  let v_subtotal := round2 (rawEstimateSubtotal items e.id)
  let v_tax_amount := round2 (v_subtotal * (e.tax_rate / 100))
  { e with subtotal := v_subtotal, tax_amount := v_tax_amount,
           total := v_subtotal + v_tax_amount }

/-- Body of recalculate_invoice_totals applied to one invoices row. -/
def recalcInvoiceDoc (inv : Invoice) (items : List InvoiceItem) : Invoice :=
  let v_subtotal := round2 (rawInvoiceSubtotal items inv.id)
  let v_tax_amount := round2 (v_subtotal * (inv.tax_rate / 100))
  { inv with subtotal := v_subtotal, tax_amount := v_tax_amount,
             total := v_subtotal + v_tax_amount }

/-- The UPDATE estimates SET subtotal = ..., tax_amount = ..., total = ...
WHERE id = eid performed by recalculate_estimate_totals.  When no row
matches, the recomputation is a no-op (parent deleted concurrently). -/
def recalculateEstimateTotals (db : EstimateDB) (eid : Nat) : EstimateDB :=
  { db with estimates :=
      db.estimates.map (fun x =>
        if x.id == eid then recalcEstimateDoc x db.items else x) }

/-- The UPDATE invoices ... WHERE id = iid performed by
recalculate_invoice_totals. -/
def recalculateInvoiceTotals (db : InvoiceDB) (iid : Nat) : InvoiceDB :=
  { db with invoices :=
      db.invoices.map (fun x =>
        if x.id == iid then recalcInvoiceDoc x db.items else x) }

/-- A single-row mutation of the estimate_items table. -/
inductive EstimateItemMutation
  | insertRow (row : EstimateItem)
  | updateRow (itemId : Nat) (newRow : EstimateItem)
  | deleteRow (itemId : Nat)

/-- A single-row mutation of the invoice_items table. -/
inductive InvoiceItemMutation
  | insertRow (row : InvoiceItem)
  | updateRow (itemId : Nat) (newRow : InvoiceItem)
  | deleteRow (itemId : Nat)

/-- The estimate id the AFTER ROW trigger recalculates for a given
mutation: COALESCE(NEW.estimate_id, OLD.estimate_id) — NEW for inserts and
updates, OLD for deletes; none when the mutation matches no row. -/
def triggeredEstimateId (db : EstimateDB) (m : EstimateItemMutation) : Option Nat :=
  match m with
  | .insertRow row => some row.estimate_id
  | .updateRow itemId newRow =>
      (db.items.find? (fun it => it.id == itemId)).map (fun _ => newRow.estimate_id)
  | .deleteRow itemId =>
      (db.items.find? (fun it => it.id == itemId)).map (fun old => old.estimate_id)

/-- The invoice id the AFTER ROW trigger recalculates for a given
mutation of invoice_items. -/
def triggeredInvoiceId (db : InvoiceDB) (m : InvoiceItemMutation) : Option Nat :=
  match m with
  | .insertRow row => some row.invoice_id
  | .updateRow itemId newRow =>
      (db.items.find? (fun it => it.id == itemId)).map (fun _ => newRow.invoice_id)
  | .deleteRow itemId =>
      (db.items.find? (fun it => it.id == itemId)).map (fun old => old.invoice_id)

/-- Apply a single-row insert, update or delete to estimate_items followed
by the AFTER INSERT OR UPDATE OR DELETE trigger
recalculate_estimate_on_item_change. -/
def applyEstimateItemMutation (db : EstimateDB) (m : EstimateItemMutation) : EstimateDB :=
  match m with
  | .insertRow row =>
      recalculateEstimateTotals { db with items := db.items ++ [row] } row.estimate_id
  | .updateRow itemId newRow =>
      match db.items.find? (fun it => it.id == itemId) with
      | none => db
      | some _ =>
          recalculateEstimateTotals
            { db with items := db.items.map (fun it => if it.id == itemId then newRow else it) }
            newRow.estimate_id
  | .deleteRow itemId =>
      match db.items.find? (fun it => it.id == itemId) with
      | none => db
      | some old =>
          recalculateEstimateTotals
            { db with items := db.items.filter (fun it => !(it.id == itemId)) }
            old.estimate_id

/-- Apply a single-row mutation to invoice_items followed by the trigger
recalculate_invoice_on_item_change. -/
def applyInvoiceItemMutation (db : InvoiceDB) (m : InvoiceItemMutation) : InvoiceDB :=
  match m with
  | .insertRow row =>
      recalculateInvoiceTotals { db with items := db.items ++ [row] } row.invoice_id
  | .updateRow itemId newRow =>
      match db.items.find? (fun it => it.id == itemId) with
      | none => db
      | some _ =>
          recalculateInvoiceTotals
            { db with items := db.items.map (fun it => if it.id == itemId then newRow else it) }
            newRow.invoice_id
  | .deleteRow itemId =>
      match db.items.find? (fun it => it.id == itemId) with
      | none => db
      | some old =>
          recalculateInvoiceTotals
            { db with items := db.items.filter (fun it => !(it.id == itemId)) }
            old.invoice_id

/-- The specification's totals invariant for one estimate, checked against
the stored state: subtotal = round2 of the item sum, tax_amount =
round2(subtotal * tax_rate / 100), total = subtotal + tax_amount.
Vacuously true when no estimate has the given id. -/
def estimateTotalsOkB (db : EstimateDB) (eid : Nat) : Bool :=
  match db.estimates.find? (fun e => e.id == eid) with
  | none => true
  | some e =>
      decide (e.subtotal = round2 (rawEstimateSubtotal db.items eid)) &&
      decide (e.tax_amount = round2 (e.subtotal * (e.tax_rate / 100))) &&
      decide (e.total = e.subtotal + e.tax_amount)

/-- The specification's totals invariant for one invoice. -/
def invoiceTotalsOkB (db : InvoiceDB) (iid : Nat) : Bool :=
  match db.invoices.find? (fun inv => inv.id == iid) with
  | none => true
  | some inv =>
      decide (inv.subtotal = round2 (rawInvoiceSubtotal db.items iid)) &&
      decide (inv.tax_amount = round2 (inv.subtotal * (inv.tax_rate / 100))) &&
      decide (inv.total = inv.subtotal + inv.tax_amount)

theorem recalcEstimateDoc_id (e : Estimate) (items : List EstimateItem) :
    (recalcEstimateDoc e items).id = e.id := rfl

theorem recalcInvoiceDoc_id (inv : Invoice) (items : List InvoiceItem) :
    (recalcInvoiceDoc inv items).id = inv.id := rfl

theorem find?_map_recalcE (l : List Estimate) (items : List EstimateItem) (eid : Nat) :
    (l.map (fun x => if x.id == eid then recalcEstimateDoc x items else x)).find?
        (fun e => e.id == eid)
      = (l.find? (fun e => e.id == eid)).map (fun e => recalcEstimateDoc e items) := by
  induction l with
  | nil => rfl
  | cons a l ih =>
    rw [List.map_cons]
    cases hb : (a.id == eid) with
    | true =>
        have hb2 : ((recalcEstimateDoc a items).id == eid) = true := by
          rw [recalcEstimateDoc_id]; exact hb
        rw [if_pos rfl, List.find?_cons, List.find?_cons, hb, hb2]
        rfl
    | false =>
        rw [if_neg (by simp), List.find?_cons, List.find?_cons, hb, ih]

theorem find?_map_recalcI (l : List Invoice) (items : List InvoiceItem) (iid : Nat) :
    (l.map (fun x => if x.id == iid then recalcInvoiceDoc x items else x)).find?
        (fun inv => inv.id == iid)
      = (l.find? (fun inv => inv.id == iid)).map (fun inv => recalcInvoiceDoc inv items) := by
  induction l with
  | nil => rfl
  | cons a l ih =>
    rw [List.map_cons]
    cases hb : (a.id == iid) with
    | true =>
        have hb2 : ((recalcInvoiceDoc a items).id == iid) = true := by
          rw [recalcInvoiceDoc_id]; exact hb
        rw [if_pos rfl, List.find?_cons, List.find?_cons, hb, hb2]
        rfl
    | false =>
        rw [if_neg (by simp), List.find?_cons, List.find?_cons, hb, ih]

theorem estimateTotalsOk_recalc (db : EstimateDB) (eid : Nat) :
    estimateTotalsOkB (recalculateEstimateTotals db eid) eid = true := by
  unfold estimateTotalsOkB recalculateEstimateTotals
  rw [show ({ db with estimates := db.estimates.map (fun x => if x.id == eid then recalcEstimateDoc x db.items else x) } : EstimateDB).estimates = db.estimates.map (fun x => if x.id == eid then recalcEstimateDoc x db.items else x) from rfl]
  rw [find?_map_recalcE]
  cases hf : db.estimates.find? (fun e => e.id == eid) with
  | none => simp
  | some e =>
    have hid : e.id = eid := by simpa using List.find?_some hf
    simp [recalcEstimateDoc, hid]

theorem invoiceTotalsOk_recalc (db : InvoiceDB) (iid : Nat) :
    invoiceTotalsOkB (recalculateInvoiceTotals db iid) iid = true := by
  unfold invoiceTotalsOkB recalculateInvoiceTotals
  rw [show ({ db with invoices := db.invoices.map (fun x => if x.id == iid then recalcInvoiceDoc x db.items else x) } : InvoiceDB).invoices = db.invoices.map (fun x => if x.id == iid then recalcInvoiceDoc x db.items else x) from rfl]
  rw [find?_map_recalcI]
  cases hf : db.invoices.find? (fun inv => inv.id == iid) with
  | none => simp
  | some inv =>
    have hid : inv.id = iid := by simpa using List.find?_some hf
    simp [recalcInvoiceDoc, hid]

/-- C1 (amended): after any single-row insert, update or delete of a line
item, the document the trigger recalculates — the item's document for
inserts and deletes, the NEW row's document for updates — satisfies
subtotal = round2(Σ qty × price), tax_amount = round2(subtotal × r / 100),
total = subtotal + tax_amount, for estimates and for invoices alike. -/
theorem C1_trigger_totals_consistency :
    (∀ (db : EstimateDB) (m : EstimateItemMutation) (eid : Nat),
        triggeredEstimateId db m = some eid →
        estimateTotalsOkB (applyEstimateItemMutation db m) eid = true) ∧
    (∀ (db : InvoiceDB) (m : InvoiceItemMutation) (iid : Nat),
        triggeredInvoiceId db m = some iid →
        invoiceTotalsOkB (applyInvoiceItemMutation db m) iid = true) := by
  constructor
  · intro db m eid h
    cases m with
    | insertRow row =>
        simp only [triggeredEstimateId, Option.some.injEq] at h
        subst h
        exact estimateTotalsOk_recalc _ _
    | updateRow itemId newRow =>
        simp only [triggeredEstimateId, Option.map_eq_some'] at h
        obtain ⟨it, hit, heid⟩ := h
        subst heid
        simp only [applyEstimateItemMutation, hit]
        exact estimateTotalsOk_recalc _ _
    | deleteRow itemId =>
        simp only [triggeredEstimateId, Option.map_eq_some'] at h
        obtain ⟨it, hit, heid⟩ := h
        subst heid
        simp only [applyEstimateItemMutation, hit]
        exact estimateTotalsOk_recalc _ _
  · intro db m iid h
    cases m with
    | insertRow row =>
        simp only [triggeredInvoiceId, Option.some.injEq] at h
        subst h
        exact invoiceTotalsOk_recalc _ _
    | updateRow itemId newRow =>
        simp only [triggeredInvoiceId, Option.map_eq_some'] at h
        obtain ⟨it, hit, heid⟩ := h
        subst heid
        simp only [applyInvoiceItemMutation, hit]
        exact invoiceTotalsOk_recalc _ _
    | deleteRow itemId =>
        simp only [triggeredInvoiceId, Option.map_eq_some'] at h
        obtain ⟨it, hit, heid⟩ := h
        subst heid
        simp only [applyInvoiceItemMutation, hit]
        exact invoiceTotalsOk_recalc _ _

/-- Concrete estimate row used in the trigger scenarios: id 1, tax rate 0,
stored totals consistent with its single line item (10). -/
def estRowA : Estimate :=
  { id := 1, user_id := 1, client_id := none, estimate_number := "EST-000001",
    title := "Roof repair", description := none, status := EstimateStatus.draft,
    issue_date := 0, valid_until := none, subtotal := 100, tax_rate := 0,
    tax_amount := 0, total := 100, notes := none, job_site_address := none,
    archived_at := none }

/-- Second concrete estimate row (same tenant), no line items, totals 0. -/
def estRowB : Estimate :=
  { estRowA with
    id := 2
    estimate_number := "EST-000002"
    title := "Deck build"
    subtotal := 0
    total := 0 }

/-- The single line item of estimate 1. -/
def itemRow10 : EstimateItem :=
  { id := 10, estimate_id := 1, description := "Labor", quantity := 1,
    unit := "each", unit_price := 100, sort_order := 0 }

/-- Table state with estimates 1 and 2 and the one item, all consistent. -/
def trigDB : EstimateDB := { estimates := [estRowA, estRowB], items := [itemRow10] }

/-- Item 10 with its parent changed from estimate 1 to estimate 2: the NEW
row of an UPDATE estimate_items SET estimate_id = 2 WHERE id = 10. -/
def itemRow10Moved : EstimateItem := { itemRow10 with estimate_id := 2 }

/-- C1 counterexample: updating item 10 — a line item of estimate 1 — to
belong to estimate 2 fires the trigger for COALESCE(NEW.estimate_id, ...)
= 2 only, so estimate 1 keeps subtotal 100 although its current line-item
set is empty: the claimed invariant fails for estimate 1 after an update
of one of its line items. -/
theorem C1_reparenting_update_counterexample :
    (trigDB.items.find? (fun it => it.id == 10)).map (fun it => it.estimate_id)
      = some 1 ∧
    estimateTotalsOkB trigDB 1 = true ∧
    estimateTotalsOkB
      (applyEstimateItemMutation trigDB (EstimateItemMutation.updateRow 10 itemRow10Moved)) 1
      = false := by
  refine ⟨by decide, by with_unfolding_all decide, by with_unfolding_all decide⟩

/-- A fresh line item inserted for estimate 2 in the witness scenario. -/
def itemRow11 : EstimateItem :=
  { id := 11, estimate_id := 2, description := "Materials", quantity := 2,
    unit := "hr", unit_price := 50, sort_order := 0 }

theorem C1_trigger_totals_consistency_witness :
    triggeredEstimateId trigDB (EstimateItemMutation.insertRow itemRow11) = some 2 ∧
    estimateTotalsOkB
      (applyEstimateItemMutation trigDB (EstimateItemMutation.insertRow itemRow11)) 2 = true :=
  ⟨by decide, C1_trigger_totals_consistency.1 trigDB (EstimateItemMutation.insertRow itemRow11) 2 (by decide)⟩

/-- Checks that the stored subtotal, tax_amount and total of the estimate
with the given id are all zero (vacuously true when no such row exists). -/
def estimateTotalsZeroB (db : EstimateDB) (eid : Nat) : Bool :=
  match db.estimates.find? (fun e => e.id == eid) with
  | none => true
  | some e =>
      decide (e.subtotal = 0) && decide (e.tax_amount = 0) && decide (e.total = 0)

/-- Checks that the stored totals of the invoice with the given id are zero. -/
def invoiceTotalsZeroB (db : InvoiceDB) (iid : Nat) : Bool :=
  match db.invoices.find? (fun inv => inv.id == iid) with
  | none => true
  | some inv =>
      decide (inv.subtotal = 0) && decide (inv.tax_amount = 0) && decide (inv.total = 0)

theorem round2_zero : round2 0 = 0 := by with_unfolding_all decide

theorem estimateTotalsZero_recalc (db : EstimateDB) (eid : Nat)
    (h : db.items.filter (fun it => it.estimate_id == eid) = []) :
    estimateTotalsZeroB (recalculateEstimateTotals db eid) eid = true := by
  unfold estimateTotalsZeroB recalculateEstimateTotals
  rw [show ({ db with estimates := db.estimates.map (fun x => if x.id == eid then recalcEstimateDoc x db.items else x) } : EstimateDB).estimates = db.estimates.map (fun x => if x.id == eid then recalcEstimateDoc x db.items else x) from rfl]
  rw [find?_map_recalcE]
  cases hf : db.estimates.find? (fun e => e.id == eid) with
  | none => simp
  | some e =>
    have hid : e.id = eid := by simpa using List.find?_some hf
    simp [recalcEstimateDoc, hid, rawEstimateSubtotal, h, round2_zero]

theorem invoiceTotalsZero_recalc (db : InvoiceDB) (iid : Nat)
    (h : db.items.filter (fun it => it.invoice_id == iid) = []) :
    invoiceTotalsZeroB (recalculateInvoiceTotals db iid) iid = true := by
  unfold invoiceTotalsZeroB recalculateInvoiceTotals
  rw [show ({ db with invoices := db.invoices.map (fun x => if x.id == iid then recalcInvoiceDoc x db.items else x) } : InvoiceDB).invoices = db.invoices.map (fun x => if x.id == iid then recalcInvoiceDoc x db.items else x) from rfl]
  rw [find?_map_recalcI]
  cases hf : db.invoices.find? (fun inv => inv.id == iid) with
  | none => simp
  | some inv =>
    have hid : inv.id = iid := by simpa using List.find?_some hf
    simp [recalcInvoiceDoc, hid, rawInvoiceSubtotal, h, round2_zero]

/-- C7 (amended): after an item mutation whose trigger targets document
eid — any insert or delete of its items, or an update whose NEW row keeps
that document — if the document's line-item set is empty, its stored
subtotal, tax_amount and total are all zero, for estimates and invoices
alike. -/
theorem C7_empty_items_zero_totals :
    (∀ (db : EstimateDB) (m : EstimateItemMutation) (eid : Nat),
        triggeredEstimateId db m = some eid →
        (applyEstimateItemMutation db m).items.filter (fun it => it.estimate_id == eid) = [] →
        estimateTotalsZeroB (applyEstimateItemMutation db m) eid = true) ∧
    (∀ (db : InvoiceDB) (m : InvoiceItemMutation) (iid : Nat),
        triggeredInvoiceId db m = some iid →
        (applyInvoiceItemMutation db m).items.filter (fun it => it.invoice_id == iid) = [] →
        invoiceTotalsZeroB (applyInvoiceItemMutation db m) iid = true) := by
  constructor
  · intro db m eid h hempty
    cases m with
    | insertRow row =>
        simp only [triggeredEstimateId, Option.some.injEq] at h
        subst h
        simp only [applyEstimateItemMutation] at hempty ⊢
        exact estimateTotalsZero_recalc _ _ hempty
    | updateRow itemId newRow =>
        simp only [triggeredEstimateId, Option.map_eq_some'] at h
        obtain ⟨it, hit, heid⟩ := h
        subst heid
        simp only [applyEstimateItemMutation, hit] at hempty ⊢
        exact estimateTotalsZero_recalc _ _ hempty
    | deleteRow itemId =>
        simp only [triggeredEstimateId, Option.map_eq_some'] at h
        obtain ⟨it, hit, heid⟩ := h
        subst heid
        simp only [applyEstimateItemMutation, hit] at hempty ⊢
        exact estimateTotalsZero_recalc _ _ hempty
  · intro db m iid h hempty
    cases m with
    | insertRow row =>
        simp only [triggeredInvoiceId, Option.some.injEq] at h
        subst h
        simp only [applyInvoiceItemMutation] at hempty ⊢
        exact invoiceTotalsZero_recalc _ _ hempty
    | updateRow itemId newRow =>
        simp only [triggeredInvoiceId, Option.map_eq_some'] at h
        obtain ⟨it, hit, heid⟩ := h
        subst heid
        simp only [applyInvoiceItemMutation, hit] at hempty ⊢
        exact invoiceTotalsZero_recalc _ _ hempty
    | deleteRow itemId =>
        simp only [triggeredInvoiceId, Option.map_eq_some'] at h
        obtain ⟨it, hit, heid⟩ := h
        subst heid
        simp only [applyInvoiceItemMutation, hit] at hempty ⊢
        exact invoiceTotalsZero_recalc _ _ hempty

/-- C7 counterexample: moving estimate 1's only line item to estimate 2
via an UPDATE leaves estimate 1 with an empty line-item set but stored
subtotal 100: the empty-items invariant fails as universally stated. -/
theorem C7_empty_items_counterexample :
    ((applyEstimateItemMutation trigDB
        (EstimateItemMutation.updateRow 10 itemRow10Moved)).items.filter
          (fun it => it.estimate_id == 1)) = [] ∧
    estimateTotalsZeroB
      (applyEstimateItemMutation trigDB (EstimateItemMutation.updateRow 10 itemRow10Moved)) 1
      = false := by
  refine ⟨by decide, by with_unfolding_all decide⟩

theorem C7_empty_items_zero_totals_witness :
    triggeredEstimateId trigDB (EstimateItemMutation.deleteRow 10) = some 1 ∧
    ((applyEstimateItemMutation trigDB (EstimateItemMutation.deleteRow 10)).items.filter
        (fun it => it.estimate_id == 1)) = [] ∧
    estimateTotalsZeroB (applyEstimateItemMutation trigDB (EstimateItemMutation.deleteRow 10)) 1
      = true :=
  ⟨by decide, by decide,
    C7_empty_items_zero_totals.1 trigDB (EstimateItemMutation.deleteRow 10) 1
      (by decide) (by decide)⟩

/-- Date.now().toString().slice(-6): the last six characters of the decimal
representation of the timestamp (the whole string when shorter). -/
def last6Digits (nowMs : Nat) : String :=
  let s := toString nowMs
  String.mk (s.data.drop (s.data.length - 6))

/-- The suggested document number of the numbering component:
PREFIX + "-" + the 6-digit time-derived suffix. -/
def generatedDocumentNumber (pfx : String) (nowMs : Nat) : String :=
  pfx ++ "-" ++ last6Digits nowMs

/-- The invoices row inserted by handleConvertToInvoice (estimate-detail):
client_id from the joined client, source_estimate_id = estimate.id, a fresh
INV number, title/description/tax_rate/notes copied, status unpaid,
issue_date today, due_date the date of now + 30 days; paid_date, archived_at
and the three totals are not supplied and take their column defaults. -/
def convertInsertedInvoice (userId : Nat) (est : Estimate) (estClient : Option ClientRow)
    (nowMs : Nat) (newInvoiceId : Nat) : Invoice :=
  { id := newInvoiceId
    user_id := userId
    client_id := estClient.map (fun c => c.id)
    source_estimate_id := some est.id
    invoice_number := generatedDocumentNumber "INV" nowMs
    title := est.title
    description := est.description
    status := InvoiceStatus.unpaid
    issue_date := nowMs / 86400000
    due_date := some ((nowMs + 30 * 86400000) / 86400000)
    paid_date := none
    subtotal := 0
    tax_rate := est.tax_rate
    tax_amount := 0
    total := 0
    notes := est.notes
    archived_at := none }

/-- The invoice_items rows built by handleConvertToInvoice:
estimate.items.map((item, index) => ...) — description, quantity, unit and
unit_price are taken from the item, sort_order is the position index, and
the database assigns fresh ids (modelled as itemIdBase + index). -/
def convertedInvoiceItemsFrom (invoiceId itemIdBase idx : Nat) :
    List EstimateItem → List InvoiceItem
  | [] => []
  | it :: rest =>
      { id := itemIdBase + idx
        invoice_id := invoiceId
        description := it.description
        quantity := it.quantity
        unit := it.unit
        unit_price := it.unit_price
        sort_order := (idx : ℤ) } :: convertedInvoiceItemsFrom invoiceId itemIdBase (idx + 1) rest

/-- The full converted item list (map with index starting at 0). -/
def convertedInvoiceItems (invoiceId itemIdBase : Nat) (items : List EstimateItem) :
    List InvoiceItem :=
  convertedInvoiceItemsFrom invoiceId itemIdBase 0 items

/-- The natural positions 0, 1, ... of a list, as integers. -/
def natRangeInt (n : Nat) : List ℤ := (List.range n).map (fun k => Int.ofNat k)

theorem convertedItemsFrom_description (invoiceId itemIdBase : Nat) :
    ∀ (items : List EstimateItem) (idx : Nat),
      (convertedInvoiceItemsFrom invoiceId itemIdBase idx items).map (fun it => it.description)
        = items.map (fun it => it.description) := by
  intro items
  induction items with
  | nil => intro idx; rfl
  | cons a rest ih =>
      intro idx
      simp only [convertedInvoiceItemsFrom, List.map_cons, ih]

theorem convertedItemsFrom_quantity (invoiceId itemIdBase : Nat) :
    ∀ (items : List EstimateItem) (idx : Nat),
      (convertedInvoiceItemsFrom invoiceId itemIdBase idx items).map (fun it => it.quantity)
        = items.map (fun it => it.quantity) := by
  intro items
  induction items with
  | nil => intro idx; rfl
  | cons a rest ih =>
      intro idx
      simp only [convertedInvoiceItemsFrom, List.map_cons, ih]

theorem convertedItemsFrom_unit (invoiceId itemIdBase : Nat) :
    ∀ (items : List EstimateItem) (idx : Nat),
      (convertedInvoiceItemsFrom invoiceId itemIdBase idx items).map (fun it => it.unit)
        = items.map (fun it => it.unit) := by
  intro items
  induction items with
  | nil => intro idx; rfl
  | cons a rest ih =>
      intro idx
      simp only [convertedInvoiceItemsFrom, List.map_cons, ih]

theorem convertedItemsFrom_unit_price (invoiceId itemIdBase : Nat) :
    ∀ (items : List EstimateItem) (idx : Nat),
      (convertedInvoiceItemsFrom invoiceId itemIdBase idx items).map (fun it => it.unit_price)
        = items.map (fun it => it.unit_price) := by
  intro items
  induction items with
  | nil => intro idx; rfl
  | cons a rest ih =>
      intro idx
      simp only [convertedInvoiceItemsFrom, List.map_cons, ih]

theorem convertedItemsFrom_invoice_id (invoiceId itemIdBase : Nat) :
    ∀ (items : List EstimateItem) (idx : Nat),
      (convertedInvoiceItemsFrom invoiceId itemIdBase idx items).map (fun it => it.invoice_id)
        = List.replicate items.length invoiceId := by
  intro items
  induction items with
  | nil => intro idx; rfl
  | cons a rest ih =>
      intro idx
      simp only [convertedInvoiceItemsFrom, List.map_cons, ih, List.length_cons,
        List.replicate_succ]

theorem convertedItemsFrom_sort_order (invoiceId itemIdBase : Nat) :
    ∀ (items : List EstimateItem) (idx : Nat),
      (convertedInvoiceItemsFrom invoiceId itemIdBase idx items).map (fun it => it.sort_order)
        = (List.range' idx items.length).map (fun k => Int.ofNat k) := by
  intro items
  induction items with
  | nil => intro idx; rfl
  | cons a rest ih =>
      intro idx
      simp only [List.length_cons]
      rw [List.range'_succ]
      simp only [convertedInvoiceItemsFrom, List.map_cons, ih]
      rfl

theorem convertedItems_sort_order (invoiceId itemIdBase : Nat) (items : List EstimateItem) :
    (convertedInvoiceItems invoiceId itemIdBase items).map (fun it => it.sort_order)
      = natRangeInt items.length := by
  unfold convertedInvoiceItems natRangeInt
  rw [convertedItemsFrom_sort_order, List.range_eq_range']

/-- The field mapping handleConvertToInvoice establishes: target fields of
the new invoice and the copied item rows, with sort_order reassigned as
the 0-based position; the final conjunct recovers sort_order preservation
exactly when the fetched list is in the application's saved order. -/
def conversionMappingOk (userId : Nat) (est : Estimate) (estClient : Option ClientRow)
    (items : List EstimateItem) (nowMs newInvoiceId itemIdBase : Nat) : Prop :=
  (convertInsertedInvoice userId est estClient nowMs newInvoiceId).client_id
      = estClient.map (fun c => c.id) ∧
  (convertInsertedInvoice userId est estClient nowMs newInvoiceId).source_estimate_id
      = some est.id ∧
  (convertInsertedInvoice userId est estClient nowMs newInvoiceId).invoice_number
      = generatedDocumentNumber "INV" nowMs ∧
  (convertInsertedInvoice userId est estClient nowMs newInvoiceId).title = est.title ∧
  (convertInsertedInvoice userId est estClient nowMs newInvoiceId).description
      = est.description ∧
  (convertInsertedInvoice userId est estClient nowMs newInvoiceId).tax_rate = est.tax_rate ∧
  (convertInsertedInvoice userId est estClient nowMs newInvoiceId).notes = est.notes ∧
  (convertInsertedInvoice userId est estClient nowMs newInvoiceId).status
      = InvoiceStatus.unpaid ∧
  (convertInsertedInvoice userId est estClient nowMs newInvoiceId).issue_date
      = nowMs / 86400000 ∧
  (convertInsertedInvoice userId est estClient nowMs newInvoiceId).due_date
      = some (nowMs / 86400000 + 30) ∧
  (convertedInvoiceItems newInvoiceId itemIdBase items).map (fun it => it.description)
      = items.map (fun it => it.description) ∧
  (convertedInvoiceItems newInvoiceId itemIdBase items).map (fun it => it.quantity)
      = items.map (fun it => it.quantity) ∧
  (convertedInvoiceItems newInvoiceId itemIdBase items).map (fun it => it.unit)
      = items.map (fun it => it.unit) ∧
  (convertedInvoiceItems newInvoiceId itemIdBase items).map (fun it => it.unit_price)
      = items.map (fun it => it.unit_price) ∧
  (convertedInvoiceItems newInvoiceId itemIdBase items).map (fun it => it.invoice_id)
      = List.replicate items.length newInvoiceId ∧
  (convertedInvoiceItems newInvoiceId itemIdBase items).map (fun it => it.sort_order)
      = natRangeInt items.length ∧
  ((items.map (fun it => it.sort_order) = natRangeInt items.length) →
    (convertedInvoiceItems newInvoiceId itemIdBase items).map (fun it => it.sort_order)
      = items.map (fun it => it.sort_order))

/-- C2 (amended): converting an approved estimate creates an invoice with
client_id copied from the estimate's joined client, source_estimate_id =
estimate.id, a freshly generated INV number, title/description/tax_rate/
notes copied verbatim, status unpaid, issue_date = today, due_date = today
plus 30 days, and a line-item set copying description, quantity, unit and
unit_price with fresh ids; sort_order is not copied but reassigned as the
item's 0-based position in the fetched list, which coincides with the
stored sort_order exactly when that list is in the saved order. -/
theorem C2_conversion_field_mapping (userId : Nat) (est : Estimate)
    (estClient : Option ClientRow) (items : List EstimateItem)
    (nowMs newInvoiceId itemIdBase : Nat)
    (_happroved : est.status = EstimateStatus.approved) :
    conversionMappingOk userId est estClient items nowMs newInvoiceId itemIdBase := by
  refine ⟨rfl, rfl, rfl, rfl, rfl, rfl, rfl, rfl, rfl, ?_, ?_, ?_, ?_, ?_, ?_, ?_, ?_⟩
  · show some ((nowMs + 30 * 86400000) / 86400000) = some (nowMs / 86400000 + 30)
    rw [Nat.add_mul_div_right _ _ (by norm_num : 0 < 86400000)]
  · exact convertedItemsFrom_description newInvoiceId itemIdBase items 0
  · exact convertedItemsFrom_quantity newInvoiceId itemIdBase items 0
  · exact convertedItemsFrom_unit newInvoiceId itemIdBase items 0
  · exact convertedItemsFrom_unit_price newInvoiceId itemIdBase items 0
  · exact convertedItemsFrom_invoice_id newInvoiceId itemIdBase items 0
  · exact convertedItems_sort_order newInvoiceId itemIdBase items
  · intro h
    rw [convertedItems_sort_order newInvoiceId itemIdBase items, h]

/-- Concrete approved estimate used in the conversion scenarios. -/
def estConvC2 : Estimate :=
  { id := 3, user_id := 1, client_id := some 5, estimate_number := "EST-300001",
    title := "Garage remodel", description := some "Full remodel",
    status := EstimateStatus.approved, issue_date := 20000, valid_until := none,
    subtotal := 700, tax_rate := 8, tax_amount := 56, total := 756,
    notes := some "Net 30", job_site_address := none, archived_at := none }

/-- Concrete joined client of the conversion scenarios. -/
def clientConvC2 : ClientRow :=
  { id := 5, user_id := 1, name := "Dana", email := some "dana@example.com",
    phone := none, address := none }

/-- An estimate item whose stored sort_order is 5 (as the database permits:
sort_order is a plain INTEGER column and the fetch has no ORDER BY). -/
def itemSortFive : EstimateItem :=
  { id := 21, estimate_id := 3, description := "Labor", quantity := 10,
    unit := "hr", unit_price := 50, sort_order := 5 }

/-- C2 counterexample: for an estimate item with stored sort_order 5, the
conversion emits sort_order 0 (its position), so the line-item set is not
a field-for-field copy with sort_order preserved. -/
theorem C2_sort_order_not_copied_counterexample :
    (convertedInvoiceItems 7 100 [itemSortFive]).map (fun it => it.sort_order) = [0] ∧
    [itemSortFive].map (fun it => it.sort_order) = [5] ∧
    ¬ ((convertedInvoiceItems 7 100 [itemSortFive]).map (fun it => it.sort_order)
        = [itemSortFive].map (fun it => it.sort_order)) := by
  refine ⟨rfl, rfl, by decide⟩

theorem C2_conversion_field_mapping_witness :
    conversionMappingOk 1 estConvC2 (some clientConvC2) [itemSortFive]
      1760000000000 7 100 :=
  C2_conversion_field_mapping 1 estConvC2 (some clientConvC2) [itemSortFive]
    1760000000000 7 100 rfl

/-- Inserting a list of invoice_items rows one at a time; the AFTER ROW
trigger recalculate_invoice_on_item_change fires after each row. -/
def insertInvoiceItemsDoc (inv : Invoice) (cur rows : List InvoiceItem) :
    Invoice × List InvoiceItem :=
  rows.foldl (fun s r =>
    let its := s.2 ++ [r]
    (recalcInvoiceDoc s.1 its, its)) (inv, cur)

/-- The conversion pipeline viewed from the new invoice document: insert
the invoices row (totals at their column defaults of 0), then insert the
copied item rows with the recalculation trigger after each one. -/
def runConversionDoc (userId : Nat) (est : Estimate) (estClient : Option ClientRow)
    (items : List EstimateItem) (nowMs newInvoiceId itemIdBase : Nat) :
    Invoice × List InvoiceItem :=
  let inv := convertInsertedInvoice userId est estClient nowMs newInvoiceId
  insertInvoiceItemsDoc inv [] (convertedInvoiceItems newInvoiceId itemIdBase items)

/-- The example estimate of the conversion-fidelity property, its stored
subtotal, tax_amount and total left as free parameters. -/
def exampleEstimateC3 (s t u : ℚ) : Estimate :=
  { id := 3, user_id := 1, client_id := none, estimate_number := "EST-300002",
    title := "Garage remodel", description := none,
    status := EstimateStatus.approved, issue_date := 20000, valid_until := none,
    subtotal := s, tax_rate := 8, tax_amount := t, total := u, notes := none,
    job_site_address := none, archived_at := none }

/-- The example line items: (Labor, 10, hr, 50) and (Materials, 1, each, 200). -/
def exampleItemsC3 : List EstimateItem :=
  [ { id := 31, estimate_id := 3, description := "Labor", quantity := 10,
      unit := "hr", unit_price := 50, sort_order := 0 },
    { id := 32, estimate_id := 3, description := "Materials", quantity := 1,
      unit := "each", unit_price := 200, sort_order := 1 } ]

theorem recalcInvoiceDoc_subtotal (inv : Invoice) (its : List InvoiceItem) :
    (recalcInvoiceDoc inv its).subtotal = round2 (rawInvoiceSubtotal its inv.id) := rfl

theorem recalcInvoiceDoc_tax_amount (inv : Invoice) (its : List InvoiceItem) :
    (recalcInvoiceDoc inv its).tax_amount
      = round2 (round2 (rawInvoiceSubtotal its inv.id) * (inv.tax_rate / 100)) := rfl

theorem recalcInvoiceDoc_total (inv : Invoice) (its : List InvoiceItem) :
    (recalcInvoiceDoc inv its).total
      = round2 (rawInvoiceSubtotal its inv.id)
        + round2 (round2 (rawInvoiceSubtotal its inv.id) * (inv.tax_rate / 100)) := rfl

theorem recalcInvoiceDoc_tax_rate (inv : Invoice) (its : List InvoiceItem) :
    (recalcInvoiceDoc inv its).tax_rate = inv.tax_rate := rfl

theorem insertInvoiceItemsDoc_step (inv : Invoice) (cur : List InvoiceItem)
    (r : InvoiceItem) (rest : List InvoiceItem) :
    insertInvoiceItemsDoc inv cur (r :: rest)
      = insertInvoiceItemsDoc (recalcInvoiceDoc inv (cur ++ [r])) (cur ++ [r]) rest := rfl

theorem insertInvoiceItemsDoc_items (rows : List InvoiceItem) :
    ∀ (inv : Invoice) (cur : List InvoiceItem),
      (insertInvoiceItemsDoc inv cur rows).2 = cur ++ rows := by
  induction rows with
  | nil => intro inv cur; simp [insertInvoiceItemsDoc]
  | cons r rest ih =>
      intro inv cur
      rw [insertInvoiceItemsDoc_step, ih]
      simp

theorem insertInvoiceItemsDoc_recalc (rows : List InvoiceItem) :
    ∀ (inv : Invoice) (cur : List InvoiceItem), rows ≠ [] →
      ∃ inv' : Invoice,
        (insertInvoiceItemsDoc inv cur rows).1 = recalcInvoiceDoc inv' (cur ++ rows) ∧
        inv'.id = inv.id ∧ inv'.tax_rate = inv.tax_rate := by
  induction rows with
  | nil => intro inv cur h; exact absurd rfl h
  | cons r rest ih =>
      intro inv cur _
      cases rest with
      | nil =>
          refine ⟨inv, ?_, rfl, rfl⟩
          rw [insertInvoiceItemsDoc_step]
          rfl
      | cons r2 rest2 =>
          obtain ⟨inv', h1, h2, h3⟩ :=
            ih (recalcInvoiceDoc inv (cur ++ [r])) (cur ++ [r]) (by simp)
          refine ⟨inv', ?_, ?_, ?_⟩
          · rw [insertInvoiceItemsDoc_step, h1]
            simp
          · rw [h2, recalcInvoiceDoc_id]
          · rw [h3, recalcInvoiceDoc_tax_rate]

set_option maxRecDepth 16000 in
/-- C3: the converted invoice's totals are produced by the recalculation
trigger from the copied items, not copied from the estimate's stored
totals: whatever values s, t, u are stored on the source estimate, the
resulting invoice has subtotal 700, tax_amount 56 and total 756 =
round2((500 + 200) * 1.08), and its line items match the example exactly. -/
theorem C3_conversion_totals_independent_of_stored (s t u : ℚ) :
    (runConversionDoc 1 (exampleEstimateC3 s t u) none exampleItemsC3
        1760000000000 7 100).1.subtotal = 700 ∧
    (runConversionDoc 1 (exampleEstimateC3 s t u) none exampleItemsC3
        1760000000000 7 100).1.tax_amount = 56 ∧
    (runConversionDoc 1 (exampleEstimateC3 s t u) none exampleItemsC3
        1760000000000 7 100).1.total = 756 ∧
    ((runConversionDoc 1 (exampleEstimateC3 s t u) none exampleItemsC3
        1760000000000 7 100).2.map (fun it => it.description)) = ["Labor", "Materials"] ∧
    ((runConversionDoc 1 (exampleEstimateC3 s t u) none exampleItemsC3
        1760000000000 7 100).2.map (fun it => it.quantity)) = [10, 1] ∧
    ((runConversionDoc 1 (exampleEstimateC3 s t u) none exampleItemsC3
        1760000000000 7 100).2.map (fun it => it.unit)) = ["hr", "each"] ∧
    ((runConversionDoc 1 (exampleEstimateC3 s t u) none exampleItemsC3
        1760000000000 7 100).2.map (fun it => it.unit_price)) = [50, 200] := by
  obtain ⟨inv', h1, h2, h3⟩ :=
    insertInvoiceItemsDoc_recalc (convertedInvoiceItems 7 100 exampleItemsC3)
      (convertInsertedInvoice 1 (exampleEstimateC3 s t u) none 1760000000000 7) []
      (by decide)
  have hid : inv'.id = 7 := h2
  have htax : inv'.tax_rate = 8 := h3
  have hrun : (runConversionDoc 1 (exampleEstimateC3 s t u) none exampleItemsC3
      1760000000000 7 100).1
        = recalcInvoiceDoc inv' ([] ++ convertedInvoiceItems 7 100 exampleItemsC3) := h1
  refine ⟨?_, ?_, ?_, rfl, rfl, rfl, rfl⟩
  · rw [hrun, recalcInvoiceDoc_subtotal, hid]
    with_unfolding_all decide
  · rw [hrun, recalcInvoiceDoc_tax_amount, hid, htax]
    with_unfolding_all decide
  · rw [hrun, recalcInvoiceDoc_total, hid, htax]
    with_unfolding_all decide

/-- The handleTogglePaid handler of the invoice detail page and the
invoices list: flips status between paid and unpaid, writing paid_date =
today's date on the transition to paid and null on the transition to
unpaid, in the same update. -/
def handleTogglePaid (inv : Invoice) (todayDate : Nat) : Invoice :=
  let newStatus :=
    if inv.status = InvoiceStatus.paid then InvoiceStatus.unpaid else InvoiceStatus.paid
  let newPaidDate :=
    if newStatus = InvoiceStatus.paid then some todayDate else none
  { inv with status := newStatus, paid_date := newPaidDate }

/-- Turns the empty string into NULL, as the forms write text || null. -/
def emptyToNull (s : String) : Option String :=
  if s = "" then none else some s

/-- The fields the InvoiceForm writes on save (status is a free user
selection between unpaid and paid; the form writes neither paid_date nor
the totals columns). -/
structure InvoiceFormFields where
  client_id : Option Nat
  invoice_number : String
  title : String
  description : String
  status : InvoiceStatus
  issue_date : Nat
  due_date : Option Nat
  tax_rate : ℚ
  notes : String
  deriving DecidableEq

/-- The UPDATE invoices ... of InvoiceForm.handleSubmit in edit mode:
writes the form fields; paid_date, the totals, source_estimate_id and
archived_at are not in the payload and keep their stored values. -/
def invoiceFormUpdate (inv0 : Invoice) (f : InvoiceFormFields) : Invoice :=
  { inv0 with
    client_id := f.client_id
    invoice_number := f.invoice_number
    title := f.title
    description := emptyToNull f.description
    status := f.status
    issue_date := f.issue_date
    due_date := f.due_date
    tax_rate := f.tax_rate
    notes := emptyToNull f.notes }

/-- The invoices row inserted by InvoiceForm.handleSubmit in create mode:
paid_date is not supplied and takes its NULL column default while status
is the form's free selection. -/
def invoiceFormInsert (userId newId : Nat) (f : InvoiceFormFields) : Invoice :=
  { id := newId
    user_id := userId
    client_id := f.client_id
    source_estimate_id := none
    invoice_number := f.invoice_number
    title := f.title
    description := emptyToNull f.description
    status := f.status
    issue_date := f.issue_date
    due_date := f.due_date
    paid_date := none
    subtotal := 0
    tax_rate := f.tax_rate
    tax_amount := 0
    total := 0
    notes := emptyToNull f.notes
    archived_at := none }

/-- The claimed invariant: paid_date is non-null exactly when status is
paid. -/
def paidDateInvariantB (inv : Invoice) : Bool :=
  inv.paid_date.isSome == decide (inv.status = InvoiceStatus.paid)

/-- A concrete unpaid invoice with no paid_date (the invariant holds). -/
def invUnpaidC4 : Invoice :=
  { id := 8, user_id := 1, client_id := none, source_estimate_id := none,
    invoice_number := "INV-000008", title := "Fence install",
    description := none, status := InvoiceStatus.unpaid, issue_date := 20000,
    due_date := some 20030, paid_date := none, subtotal := 100, tax_rate := 0,
    tax_amount := 0, total := 100, notes := none, archived_at := none }

/-- The form fields of a save that switches the same invoice to paid. -/
def formFieldsPaidC4 : InvoiceFormFields :=
  { client_id := none, invoice_number := "INV-000008", title := "Fence install",
    description := "", status := InvoiceStatus.paid, issue_date := 20000,
    due_date := some 20030, tax_rate := 0, notes := "" }

/-- C4 counterexample: editing an unpaid invoice through the invoice form
with status switched to paid writes status = paid without touching
paid_date, so the saved row has status paid and paid_date null — the
claimed invariant fails after a form save, and the transition to paid did
not set paid_date. -/
theorem C4_form_breaks_paid_date_counterexample :
    paidDateInvariantB invUnpaidC4 = true ∧
    (invoiceFormUpdate invUnpaidC4 formFieldsPaidC4).status = InvoiceStatus.paid ∧
    (invoiceFormUpdate invUnpaidC4 formFieldsPaidC4).paid_date = none ∧
    paidDateInvariantB (invoiceFormUpdate invUnpaidC4 formFieldsPaidC4) = false := by
  refine ⟨by decide, rfl, rfl, by decide⟩

/-- C4 (amended): the paid toggle maintains paid-date bookkeeping — it
always re-establishes the invariant, sets paid_date to today's date on the
transition to paid and clears it on the transition to unpaid — but the
invoice form's create and edit paths write status without touching
paid_date (edit keeps the stored value, create leaves the NULL default),
so the invariant paid_date non-null iff status paid is not maintained by
every operation of the system. -/
theorem C4_toggle_maintains_paid_date :
    (∀ (inv : Invoice) (d : Nat),
        paidDateInvariantB (handleTogglePaid inv d) = true) ∧
    (∀ (inv : Invoice) (d : Nat), inv.status = InvoiceStatus.unpaid →
        (handleTogglePaid inv d).status = InvoiceStatus.paid ∧
        (handleTogglePaid inv d).paid_date = some d) ∧
    (∀ (inv : Invoice) (d : Nat), inv.status = InvoiceStatus.paid →
        (handleTogglePaid inv d).status = InvoiceStatus.unpaid ∧
        (handleTogglePaid inv d).paid_date = none) ∧
    (∀ (inv : Invoice) (f : InvoiceFormFields),
        (invoiceFormUpdate inv f).paid_date = inv.paid_date ∧
        (invoiceFormUpdate inv f).status = f.status) ∧
    (∀ (userId newId : Nat) (f : InvoiceFormFields),
        (invoiceFormInsert userId newId f).paid_date = none ∧
        (invoiceFormInsert userId newId f).status = f.status) := by
  refine ⟨?_, ?_, ?_, fun inv f => ⟨rfl, rfl⟩, fun u n f => ⟨rfl, rfl⟩⟩
  · intro inv d
    cases h : inv.status <;> simp [handleTogglePaid, paidDateInvariantB, h]
  · intro inv d h
    simp [handleTogglePaid, h]
  · intro inv d h
    simp [handleTogglePaid, h]

theorem C4_toggle_maintains_paid_date_witness :
    paidDateInvariantB (handleTogglePaid invUnpaidC4 20010) = true ∧
    (handleTogglePaid invUnpaidC4 20010).status = InvoiceStatus.paid ∧
    (handleTogglePaid invUnpaidC4 20010).paid_date = some 20010 :=
  ⟨C4_toggle_maintains_paid_date.1 invUnpaidC4 20010,
   (C4_toggle_maintains_paid_date.2.1 invUnpaidC4 20010 rfl).1,
   (C4_toggle_maintains_paid_date.2.1 invUnpaidC4 20010 rfl).2⟩

/-- The isOverdue derivation of the invoices list and the invoice detail
page: status === unpaid, due_date truthy, and new Date(due_date) — the UTC
midnight of the due date, in milliseconds — strictly before new Date(),
the current instant. -/
def invoiceIsOverdue (status : InvoiceStatus) (due_date : Option Nat) (nowMs : Nat) : Bool :=
  decide (status = InvoiceStatus.unpaid) &&
    (match due_date with
     | none => false
     | some d => decide (d * 86400000 < nowMs))

/-- Written from the specification's words: status == unpaid AND due_date
is set AND due_date < today, where today is the date of the current
instant. -/
def invoiceIsOverdueSpecWords (status : InvoiceStatus) (due_date : Option Nat)
    (nowMs : Nat) : Bool :=
  decide (status = InvoiceStatus.unpaid) &&
    (match due_date with
     | none => false
     | some d => decide (d < nowMs / 86400000))

/-- C6 counterexample: one millisecond after UTC midnight of day 0, an
unpaid invoice due on day 0 — due today, not before today — is already
reported overdue by the code, while the specification's formula
due_date < today says it is not. -/
theorem C6_due_today_counterexample :
    invoiceIsOverdue InvoiceStatus.unpaid (some 0) 1 = true ∧
    invoiceIsOverdueSpecWords InvoiceStatus.unpaid (some 0) 1 = false ∧
    ¬ (invoiceIsOverdue InvoiceStatus.unpaid (some 0) 1
        = invoiceIsOverdueSpecWords InvoiceStatus.unpaid (some 0) 1) := by
  refine ⟨by decide, by decide, by decide⟩

/-- C6 (amended): overdue is a derived, non-persisted property computed as
status == unpaid AND due_date set AND the UTC midnight of due_date strictly
before the current instant — so an invoice whose due_date is today already
reports overdue once the day has begun, an unpaid invoice due yesterday
reports overdue, and a paid invoice reports not overdue regardless of its
due_date. -/
theorem C6_overdue_derivation :
    (∀ (status : InvoiceStatus) (due : Option Nat) (nowMs : Nat),
        invoiceIsOverdue status due nowMs = true ↔
          (status = InvoiceStatus.unpaid ∧
            ∃ d, due = some d ∧ d * 86400000 < nowMs)) ∧
    (∀ (d nowMs : Nat), nowMs / 86400000 = d + 1 →
        invoiceIsOverdue InvoiceStatus.unpaid (some d) nowMs = true) ∧
    (∀ (due : Option Nat) (nowMs : Nat),
        invoiceIsOverdue InvoiceStatus.paid due nowMs = false) := by
  refine ⟨?_, ?_, ?_⟩
  · intro status due nowMs
    cases due with
    | none => simp [invoiceIsOverdue]
    | some d => simp [invoiceIsOverdue]
  · intro d nowMs h
    have hle : (d + 1) * 86400000 ≤ nowMs := by
      calc (d + 1) * 86400000 = nowMs / 86400000 * 86400000 := by rw [h]
        _ ≤ nowMs := Nat.div_mul_le_self nowMs 86400000
    have hlt : d * 86400000 < nowMs :=
      lt_of_lt_of_le (by omega) hle
    simp [invoiceIsOverdue, hlt]
  · intro due nowMs
    simp [invoiceIsOverdue]

theorem C6_overdue_derivation_witness :
    ((86400000 : Nat) / 86400000 = 0 + 1) ∧
    invoiceIsOverdue InvoiceStatus.unpaid (some 0) 86400000 = true :=
  ⟨by decide, C6_overdue_derivation.2.1 0 86400000 (by decide)⟩

/-- The handleArchive handler of the estimate detail page: a single update
writing only archived_at — the current timestamp when the document was
active, null when it was archived. -/
def handleArchiveEstimate (e : Estimate) (nowTs : Nat) : Estimate :=
  let newArchivedAt : Option Nat :=
    match e.archived_at with
    | some _ => none
    | none => some nowTs
  { e with archived_at := newArchivedAt }

/-- The handleArchive handler of the invoice detail page. -/
def handleArchiveInvoice (inv : Invoice) (nowTs : Nat) : Invoice :=
  let newArchivedAt : Option Nat :=
    match inv.archived_at with
    | some _ => none
    | none => some nowTs
  { inv with archived_at := newArchivedAt }

/-- The estimates list page query: select all estimates with
archived_at IS NULL (ordering by created_at omitted from the model). -/
def defaultEstimatesList (ds : List Estimate) : List Estimate :=
  ds.filter (fun e => e.archived_at.isNone)

/-- Modelled from the spec: the invoices list page itself is not among the
source files (only the InvoicesList component is); per the spec the archive
toggle has the same semantics as for estimates, archived documents being
excluded from the default list view. -/
def defaultInvoicesList (ds : List Invoice) : List Invoice :=
  ds.filter (fun inv => inv.archived_at.isNone)

/-- The detail and edit page fetch: select ... where id = the requested id,
with no archived_at condition. -/
def findEstimateById (ds : List Estimate) (i : Nat) : Option Estimate :=
  ds.find? (fun e => e.id == i)

/-- The invoice detail page fetch by id, with no archived_at condition. -/
def findInvoiceById (ds : List Invoice) (i : Nat) : Option Invoice :=
  ds.find? (fun inv => inv.id == i)

/-- C8: the archive toggle writes only archived_at — status and the three
totals are unchanged, an active document receives archived_at = now and an
archived one has it cleared — archived documents are excluded from the
default list views while remaining addressable by id, and unarchiving
restores default-list visibility without altering status or totals. -/
theorem C8_archive_orthogonal_to_status :
    (∀ (e : Estimate) (nowTs : Nat),
        (handleArchiveEstimate e nowTs).status = e.status ∧
        (handleArchiveEstimate e nowTs).subtotal = e.subtotal ∧
        (handleArchiveEstimate e nowTs).tax_amount = e.tax_amount ∧
        (handleArchiveEstimate e nowTs).total = e.total ∧
        (handleArchiveEstimate e nowTs).archived_at
          = (match e.archived_at with
             | some _ => none
             | none => some nowTs)) ∧
    (∀ (inv : Invoice) (nowTs : Nat),
        (handleArchiveInvoice inv nowTs).status = inv.status ∧
        (handleArchiveInvoice inv nowTs).subtotal = inv.subtotal ∧
        (handleArchiveInvoice inv nowTs).tax_amount = inv.tax_amount ∧
        (handleArchiveInvoice inv nowTs).total = inv.total ∧
        (handleArchiveInvoice inv nowTs).archived_at
          = (match inv.archived_at with
             | some _ => none
             | none => some nowTs)) ∧
    (∀ (ds : List Estimate) (d : Estimate),
        d ∈ defaultEstimatesList ds ↔ d ∈ ds ∧ d.archived_at = none) ∧
    (∀ (ds : List Invoice) (d : Invoice),
        d ∈ defaultInvoicesList ds ↔ d ∈ ds ∧ d.archived_at = none) ∧
    (∀ (ds : List Estimate) (e : Estimate), findEstimateById (e :: ds) e.id = some e) ∧
    (∀ (ds : List Invoice) (inv : Invoice), findInvoiceById (inv :: ds) inv.id = some inv) ∧
    (∀ (ds : List Estimate) (e : Estimate) (nowTs : Nat), e.archived_at = none →
        ¬ (handleArchiveEstimate e nowTs
            ∈ defaultEstimatesList (handleArchiveEstimate e nowTs :: ds))) := by
  refine ⟨?_, ?_, ?_, ?_, ?_, ?_, ?_⟩
  · intro e nowTs
    exact ⟨rfl, rfl, rfl, rfl, rfl⟩
  · intro inv nowTs
    exact ⟨rfl, rfl, rfl, rfl, rfl⟩
  · intro ds d
    simp [defaultEstimatesList, List.mem_filter, Option.isNone_iff_eq_none]
  · intro ds d
    simp [defaultInvoicesList, List.mem_filter, Option.isNone_iff_eq_none]
  · intro ds e
    simp [findEstimateById, List.find?_cons]
  · intro ds inv
    simp [findInvoiceById, List.find?_cons]
  · intro ds e nowTs h
    simp [defaultEstimatesList, List.mem_filter, handleArchiveEstimate, h]

theorem C8_archive_orthogonal_to_status_witness :
    (handleArchiveEstimate estRowA 123).status = estRowA.status ∧
    (handleArchiveEstimate estRowA 123).total = estRowA.total ∧
    ¬ (handleArchiveEstimate estRowA 123
        ∈ defaultEstimatesList (handleArchiveEstimate estRowA 123 :: [])) :=
  ⟨(C8_archive_orthogonal_to_status.1 estRowA 123).1,
   (C8_archive_orthogonal_to_status.1 estRowA 123).2.2.2.1,
   C8_archive_orthogonal_to_status.2.2.2.2.2.2 [] estRowA 123 rfl⟩

/-- Save-time errors surfaced to the caller: the unique-index violation the
forms catch and report. -/
inductive SaveError
  | uniquenessConflict
  deriving DecidableEq

/-- Whether a row with this tenant and estimate_number already exists:
the condition enforced by the unique index idx_estimates_number_user on
(user_id, estimate_number). -/
def estimateNumberTaken (tbl : List Estimate) (userId : Nat) (num : String) : Bool :=
  tbl.any (fun x => x.user_id == userId && x.estimate_number == num)

/-- Insert into estimates under the unique index: a duplicate
(user_id, estimate_number) pair is rejected with a uniqueness conflict —
the thrown error the estimate form surfaces — otherwise the row is added. -/
def insertEstimateChecked (tbl : List Estimate) (r : Estimate) :
    Except SaveError (List Estimate) :=
  if estimateNumberTaken tbl r.user_id r.estimate_number then
    Except.error SaveError.uniquenessConflict
  else Except.ok (tbl ++ [r])

/-- Whether a row with this tenant and invoice_number already exists:
the condition enforced by idx_invoices_number_user. -/
def invoiceNumberTaken (tbl : List Invoice) (userId : Nat) (num : String) : Bool :=
  tbl.any (fun x => x.user_id == userId && x.invoice_number == num)

/-- Insert into invoices under the unique index idx_invoices_number_user. -/
def insertInvoiceChecked (tbl : List Invoice) (r : Invoice) :
    Except SaveError (List Invoice) :=
  if invoiceNumberTaken tbl r.user_id r.invoice_number then
    Except.error SaveError.uniquenessConflict
  else Except.ok (tbl ++ [r])

/-- C9: saving two estimates with the same tenant and estimate_number
fails with a uniqueness conflict surfaced to the caller, and likewise for
invoices and invoice_number, while the same number under two different
tenants is accepted for both. -/
theorem C9_number_uniqueness_per_tenant :
    (∀ (r1 r2 : Estimate), r1.user_id = r2.user_id →
        r1.estimate_number = r2.estimate_number →
        insertEstimateChecked [] r1 = Except.ok [r1] ∧
        insertEstimateChecked [r1] r2 = Except.error SaveError.uniquenessConflict) ∧
    (∀ (r1 r2 : Estimate), r1.user_id ≠ r2.user_id →
        insertEstimateChecked [] r1 = Except.ok [r1] ∧
        insertEstimateChecked [r1] r2 = Except.ok [r1, r2]) ∧
    (∀ (r1 r2 : Invoice), r1.user_id = r2.user_id →
        r1.invoice_number = r2.invoice_number →
        insertInvoiceChecked [] r1 = Except.ok [r1] ∧
        insertInvoiceChecked [r1] r2 = Except.error SaveError.uniquenessConflict) ∧
    (∀ (r1 r2 : Invoice), r1.user_id ≠ r2.user_id →
        insertInvoiceChecked [] r1 = Except.ok [r1] ∧
        insertInvoiceChecked [r1] r2 = Except.ok [r1, r2]) := by
  refine ⟨?_, ?_, ?_, ?_⟩
  · intro r1 r2 hu hn
    refine ⟨rfl, ?_⟩
    simp [insertEstimateChecked, estimateNumberTaken, hu, hn]
  · intro r1 r2 hu
    refine ⟨rfl, ?_⟩
    simp [insertEstimateChecked, estimateNumberTaken, hu]
  · intro r1 r2 hu hn
    refine ⟨rfl, ?_⟩
    simp [insertInvoiceChecked, invoiceNumberTaken, hu, hn]
  · intro r1 r2 hu
    refine ⟨rfl, ?_⟩
    simp [insertInvoiceChecked, invoiceNumberTaken, hu]

/-- An estimate of a second tenant carrying the same number as estRowA. -/
def estRowOtherTenant : Estimate :=
  { estRowA with
    id := 4
    user_id := 2 }

theorem C9_number_uniqueness_per_tenant_witness :
    (insertEstimateChecked [] estRowA = Except.ok [estRowA] ∧
      insertEstimateChecked [estRowA] { estRowA with id := 9 }
        = Except.error SaveError.uniquenessConflict) ∧
    (insertEstimateChecked [] estRowA = Except.ok [estRowA] ∧
      insertEstimateChecked [estRowA] estRowOtherTenant
        = Except.ok [estRowA, estRowOtherTenant]) :=
  ⟨C9_number_uniqueness_per_tenant.1 estRowA { estRowA with id := 9 } rfl rfl,
   C9_number_uniqueness_per_tenant.2.1 estRowA estRowOtherTenant (by decide)⟩

/-- One line item of the form UI (the LineItem shape of the components). -/
structure FormItem where
  id : String
  description : String
  quantity : ℚ
  unit : String
  unit_price : ℚ
  deriving DecidableEq

/-- items.reduce((sum, item) => sum + item.quantity * item.unit_price, 0):
the form's client-side subtotal, unrounded. -/
def formSubtotal (items : List FormItem) : ℚ :=
  (items.map (fun i => i.quantity * i.unit_price)).sum

/-- The estimate_items rows the form inserts: items.map((item, index) =>
...) with sort_order = index and database-assigned fresh ids. -/
def estimateItemRowsFrom (eid idBase idx : Nat) : List FormItem → List EstimateItem
  | [] => []
  | it :: rest =>
      { id := idBase + idx
        estimate_id := eid
        description := it.description
        quantity := it.quantity
        unit := it.unit
        unit_price := it.unit_price
        sort_order := (idx : ℤ) } :: estimateItemRowsFrom eid idBase (idx + 1) rest

/-- The fields of the estimate form (strings as the inputs hold them; the
form writes text || null for the optional texts). -/
structure EstimateFormFields where
  client_id : Option Nat
  estimate_number : String
  title : String
  description : String
  issue_date : Nat
  valid_until : Option Nat
  tax_rate : ℚ
  notes : String
  job_site_address : String
  deriving DecidableEq

/-- The UPDATE estimates ... of EstimateForm.handleSubmit in edit mode:
writes the form fields, the given status, and the client-side unrounded
subtotal / tax_amount / total. -/
def estimateFormUpdate (est0 : Estimate) (f : EstimateFormFields)
    (writtenStatus : EstimateStatus) (sub tax tot : ℚ) : Estimate :=
  { est0 with
    client_id := f.client_id
    estimate_number := f.estimate_number
    title := f.title
    description := emptyToNull f.description
    status := writtenStatus
    issue_date := f.issue_date
    valid_until := f.valid_until
    subtotal := sub
    tax_rate := f.tax_rate
    tax_amount := tax
    total := tot
    notes := emptyToNull f.notes
    job_site_address := emptyToNull f.job_site_address }

/-- clientsList.find(c => c.id === clientId): the client selected in the
form, when one is selected. -/
def selectedClientOf (cid : Option Nat) (clients : List ClientRow) : Option ClientRow :=
  cid.bind (fun c => clients.find? (fun x => x.id == c))

/-- The send-precondition guard of handleSubmit: a client is selected and
that client has an email address. -/
def clientEmailPresent (cid : Option Nat) (clients : List ClientRow) : Bool :=
  match selectedClientOf cid clients with
  | none => false
  | some cl => cl.email.isSome

/-- The sendEstimateAction server action, viewed from the estimate it
refetches: requires the joined client to have an email, dispatches the
notification (outcome dispatchOk), and only after a successful dispatch
updates the estimate's status to sent — unconditionally, whatever the
status was; every failure path returns the estimate unchanged together
with success = false. -/
def sendEstimateAction (est : Estimate) (joinedClient : Option ClientRow)
    (dispatchOk : Bool) : Estimate × Bool :=
  match joinedClient with
  | none => (est, false)
  | some c =>
      match c.email with
      | none => (est, false)
      | some _ =>
          if dispatchOk then ({ est with status := EstimateStatus.sent }, true)
          else (est, false)

/-- status: sendEmail ? initialData.status : saveStatus — the status value
written by the edit-mode update. -/
def estimateWrittenStatus (est0 : Estimate) (saveStatus : EstimateStatus)
    (sendEmail : Bool) : EstimateStatus :=
  if sendEmail then est0.status else saveStatus

/-- The estimate row after the edit-mode update statement. -/
def estimateAfterUpdate (est0 : Estimate) (f : EstimateFormFields)
    (formItems : List FormItem) (saveStatus : EstimateStatus) (sendEmail : Bool) : Estimate :=
  estimateFormUpdate est0 f (estimateWrittenStatus est0 saveStatus sendEmail)
    (formSubtotal formItems)
    (formSubtotal formItems * (f.tax_rate / 100))
    (formSubtotal formItems + formSubtotal formItems * (f.tax_rate / 100))

/-- DELETE FROM estimate_items WHERE estimate_id = est.id, with the
recalculation trigger firing once per deleted row (hence not at all when
the estimate had no items). -/
def estimateAfterDeleteItems (est1 : Estimate) (oldItems : List EstimateItem) : Estimate :=
  if oldItems.isEmpty then est1 else recalcEstimateDoc est1 []

/-- Inserting the new estimate_items rows one at a time, the trigger firing
after each row. -/
def insertEstimateItemsDoc (e : Estimate) (cur rows : List EstimateItem) :
    Estimate × List EstimateItem :=
  rows.foldl (fun s r =>
    let its := s.2 ++ [r]
    (recalcEstimateDoc s.1 its, its)) (e, cur)

/-- The write sequence of handleSubmit past its validation guards: update
the estimates row, replace the line items (delete all, re-insert), and when
sending, invoke sendEstimateAction on the persisted estimate; the handler's
own result does not depend on the action's success flag. -/
def estimateSavePipeline (est0 : Estimate) (oldItems : List EstimateItem)
    (clients : List ClientRow) (f : EstimateFormFields) (formItems : List FormItem)
    (saveStatus : EstimateStatus) (sendEmail dispatchOk : Bool) (newItemIdBase : Nat) :
    Estimate × List EstimateItem :=
  if sendEmail then
    ((sendEstimateAction
        (insertEstimateItemsDoc
          (estimateAfterDeleteItems (estimateAfterUpdate est0 f formItems saveStatus sendEmail)
            oldItems)
          [] (estimateItemRowsFrom est0.id newItemIdBase 0 formItems)).1
        (selectedClientOf f.client_id clients) dispatchOk).1,
     (insertEstimateItemsDoc
        (estimateAfterDeleteItems (estimateAfterUpdate est0 f formItems saveStatus sendEmail)
          oldItems)
        [] (estimateItemRowsFrom est0.id newItemIdBase 0 formItems)).2)
  else
    insertEstimateItemsDoc
      (estimateAfterDeleteItems (estimateAfterUpdate est0 f formItems saveStatus sendEmail)
        oldItems)
      [] (estimateItemRowsFrom est0.id newItemIdBase 0 formItems)

/-- Strips leading and trailing whitespace: the semantics of the
JavaScript title.trim() / estimateNumber.trim() validation checks, written
structurally over the character list. -/
def strTrim (s : String) : String :=
  String.mk ((s.data.dropWhile Char.isWhitespace).reverse.dropWhile Char.isWhitespace).reverse

/-- EstimateForm.handleSubmit in edit mode: the validation guards (title,
number, at least one item, and — when sending — a selected client with an
email) leave the stored state untouched; past them the save pipeline runs. -/
def handleSubmitEditEstimate (est0 : Estimate) (oldItems : List EstimateItem)
    (clients : List ClientRow) (f : EstimateFormFields) (formItems : List FormItem)
    (saveStatus : EstimateStatus) (sendEmail dispatchOk : Bool) (newItemIdBase : Nat) :
    Estimate × List EstimateItem :=
  if strTrim f.title = "" then (est0, oldItems)
  else if strTrim f.estimate_number = "" then (est0, oldItems)
  else if formItems.isEmpty then (est0, oldItems)
  else if sendEmail && !(clientEmailPresent f.client_id clients) then (est0, oldItems)
  else estimateSavePipeline est0 oldItems clients f formItems saveStatus sendEmail dispatchOk
    newItemIdBase

theorem insertEstimateItemsDoc_step (e : Estimate) (cur : List EstimateItem)
    (r : EstimateItem) (rest : List EstimateItem) :
    insertEstimateItemsDoc e cur (r :: rest)
      = insertEstimateItemsDoc (recalcEstimateDoc e (cur ++ [r])) (cur ++ [r]) rest := rfl

theorem insertEstimateItemsDoc_items (rows : List EstimateItem) :
    ∀ (e : Estimate) (cur : List EstimateItem),
      (insertEstimateItemsDoc e cur rows).2 = cur ++ rows := by
  induction rows with
  | nil => intro e cur; simp [insertEstimateItemsDoc]
  | cons r rest ih =>
      intro e cur
      rw [insertEstimateItemsDoc_step, ih]
      simp

theorem insertEstimateItemsDoc_fields (rows : List EstimateItem) :
    ∀ (e : Estimate) (cur : List EstimateItem),
      ((insertEstimateItemsDoc e cur rows).1).status = e.status ∧
      ((insertEstimateItemsDoc e cur rows).1).title = e.title ∧
      ((insertEstimateItemsDoc e cur rows).1).estimate_number = e.estimate_number ∧
      ((insertEstimateItemsDoc e cur rows).1).client_id = e.client_id ∧
      ((insertEstimateItemsDoc e cur rows).1).tax_rate = e.tax_rate ∧
      ((insertEstimateItemsDoc e cur rows).1).description = e.description ∧
      ((insertEstimateItemsDoc e cur rows).1).notes = e.notes ∧
      ((insertEstimateItemsDoc e cur rows).1).issue_date = e.issue_date ∧
      ((insertEstimateItemsDoc e cur rows).1).valid_until = e.valid_until ∧
      ((insertEstimateItemsDoc e cur rows).1).job_site_address = e.job_site_address := by
  induction rows with
  | nil =>
      intro e cur
      exact ⟨rfl, rfl, rfl, rfl, rfl, rfl, rfl, rfl, rfl, rfl⟩
  | cons r rest ih =>
      intro e cur
      rw [insertEstimateItemsDoc_step]
      exact ih (recalcEstimateDoc e (cur ++ [r])) (cur ++ [r])

theorem estimateAfterDeleteItems_fields (e : Estimate) (oldItems : List EstimateItem) :
    (estimateAfterDeleteItems e oldItems).status = e.status ∧
    (estimateAfterDeleteItems e oldItems).title = e.title ∧
    (estimateAfterDeleteItems e oldItems).estimate_number = e.estimate_number ∧
    (estimateAfterDeleteItems e oldItems).client_id = e.client_id ∧
    (estimateAfterDeleteItems e oldItems).tax_rate = e.tax_rate ∧
    (estimateAfterDeleteItems e oldItems).description = e.description ∧
    (estimateAfterDeleteItems e oldItems).notes = e.notes := by
  unfold estimateAfterDeleteItems
  split
  · exact ⟨rfl, rfl, rfl, rfl, rfl, rfl, rfl⟩
  · exact ⟨rfl, rfl, rfl, rfl, rfl, rfl, rfl⟩

/-- C10: when the joined client has an email address, a successful dispatch
makes sendEstimateAction set the estimate's status to sent unconditionally
— whatever the status was before, including approved or declined — while a
failed dispatch leaves the estimate unchanged. -/
theorem C10_send_action_unconditionally_sets_sent (est : Estimate) (c : ClientRow)
    (em : String) (hem : c.email = some em) :
    sendEstimateAction est (some c) true
        = ({ est with status := EstimateStatus.sent }, true) ∧
    sendEstimateAction est (some c) false = (est, false) := by
  constructor
  · show (match c.email with
      | none => (est, false)
      | some _ =>
          if true then ({ est with status := EstimateStatus.sent }, true)
          else (est, false)) = _
    rw [hem]
    rfl
  · show (match c.email with
      | none => (est, false)
      | some _ =>
          if false then ({ est with status := EstimateStatus.sent }, true)
          else (est, false)) = _
    rw [hem]
    rfl

/-- A concrete approved estimate re-sent through the action. -/
def estApprovedC10 : Estimate :=
  { estRowA with
    id := 12
    estimate_number := "EST-000012"
    status := EstimateStatus.approved }

theorem C10_send_action_witness :
    estApprovedC10.status = EstimateStatus.approved ∧
    (sendEstimateAction estApprovedC10 (some clientConvC2) true).1.status
      = EstimateStatus.sent := by
  refine ⟨rfl, ?_⟩
  rw [(C10_send_action_unconditionally_sets_sent estApprovedC10 clientConvC2
    "dana@example.com" rfl).1]

theorem sendEstimateAction_fst_ok (est : Estimate) (c : ClientRow) (em : String)
    (hem : c.email = some em) :
    (sendEstimateAction est (some c) true).1 = { est with status := EstimateStatus.sent } := by
  show (match c.email with
    | none => (est, false)
    | some _ =>
        if true then ({ est with status := EstimateStatus.sent }, true)
        else (est, false)).1 = _
  rw [hem]
  rfl

theorem sendEstimateAction_fst_fail (est : Estimate) (c : ClientRow) (em : String)
    (hem : c.email = some em) :
    (sendEstimateAction est (some c) false).1 = est := by
  show (match c.email with
    | none => (est, false)
    | some _ =>
        if false then ({ est with status := EstimateStatus.sent }, true)
        else (est, false)).1 = _
  rw [hem]
  rfl

theorem estimateSavePipeline_sendTrue (est0 : Estimate) (oldItems : List EstimateItem)
    (clients : List ClientRow) (f : EstimateFormFields) (formItems : List FormItem)
    (saveStatus : EstimateStatus) (dispatchOk : Bool) (newItemIdBase : Nat) :
    estimateSavePipeline est0 oldItems clients f formItems saveStatus true dispatchOk
        newItemIdBase
      = ((sendEstimateAction
            (insertEstimateItemsDoc
              (estimateAfterDeleteItems
                (estimateAfterUpdate est0 f formItems saveStatus true) oldItems)
              [] (estimateItemRowsFrom est0.id newItemIdBase 0 formItems)).1
            (selectedClientOf f.client_id clients) dispatchOk).1,
         (insertEstimateItemsDoc
            (estimateAfterDeleteItems
              (estimateAfterUpdate est0 f formItems saveStatus true) oldItems)
            [] (estimateItemRowsFrom est0.id newItemIdBase 0 formItems)).2) := rfl

/-- The conclusions of the send-failure-isolation property: with dispatch
failing, the saved estimate carries the form's fields, the replaced item
set, and its status from before the send attempt; with dispatch
succeeding, the status is sent and the same item set is saved. -/
def sendFailureIsolationOk (est0 : Estimate) (oldItems : List EstimateItem)
    (clients : List ClientRow) (f : EstimateFormFields) (formItems : List FormItem)
    (saveStatus : EstimateStatus) (newItemIdBase : Nat) : Prop :=
  (handleSubmitEditEstimate est0 oldItems clients f formItems saveStatus true false
      newItemIdBase).1.status = est0.status ∧
  (handleSubmitEditEstimate est0 oldItems clients f formItems saveStatus true false
      newItemIdBase).1.title = f.title ∧
  (handleSubmitEditEstimate est0 oldItems clients f formItems saveStatus true false
      newItemIdBase).1.estimate_number = f.estimate_number ∧
  (handleSubmitEditEstimate est0 oldItems clients f formItems saveStatus true false
      newItemIdBase).1.client_id = f.client_id ∧
  (handleSubmitEditEstimate est0 oldItems clients f formItems saveStatus true false
      newItemIdBase).1.tax_rate = f.tax_rate ∧
  (handleSubmitEditEstimate est0 oldItems clients f formItems saveStatus true false
      newItemIdBase).1.description = emptyToNull f.description ∧
  (handleSubmitEditEstimate est0 oldItems clients f formItems saveStatus true false
      newItemIdBase).1.notes = emptyToNull f.notes ∧
  (handleSubmitEditEstimate est0 oldItems clients f formItems saveStatus true false
      newItemIdBase).2 = estimateItemRowsFrom est0.id newItemIdBase 0 formItems ∧
  (handleSubmitEditEstimate est0 oldItems clients f formItems saveStatus true true
      newItemIdBase).1.status = EstimateStatus.sent ∧
  (handleSubmitEditEstimate est0 oldItems clients f formItems saveStatus true true
      newItemIdBase).2 = estimateItemRowsFrom est0.id newItemIdBase 0 formItems

/-- C5: in the edit-mode save-and-send flow, once the validations pass,
the estimate is persisted with the form's edited fields and the replaced
line-item set whether or not dispatch succeeds; the update writes the
pre-existing status, and a failed dispatch performs no status change, so
the status remains exactly what it was before the send attempt — it
becomes sent only on the successful-dispatch path. -/
theorem C5_send_failure_isolation (est0 : Estimate) (oldItems : List EstimateItem)
    (clients : List ClientRow) (f : EstimateFormFields) (formItems : List FormItem)
    (saveStatus : EstimateStatus) (newItemIdBase : Nat)
    (ht : ¬ strTrim f.title = "") (hn : ¬ strTrim f.estimate_number = "")
    (hi : formItems ≠ []) (hc : clientEmailPresent f.client_id clients = true) :
    sendFailureIsolationOk est0 oldItems clients f formItems saveStatus newItemIdBase := by
  have hempty : ¬ (formItems.isEmpty = true) := by
    cases formItems with
    | nil => exact absurd rfl hi
    | cons a l => simp
  have hguard : ¬ ((true && !clientEmailPresent f.client_id clients) = true) := by
    simp [hc]
  have hred : ∀ dOk : Bool,
      handleSubmitEditEstimate est0 oldItems clients f formItems saveStatus true dOk
          newItemIdBase
        = estimateSavePipeline est0 oldItems clients f formItems saveStatus true dOk
            newItemIdBase := by
    intro dOk
    unfold handleSubmitEditEstimate
    rw [if_neg ht, if_neg hn, if_neg hempty, if_neg hguard]
  obtain ⟨c, hsel, hcem⟩ :
      ∃ c, selectedClientOf f.client_id clients = some c ∧ c.email.isSome = true := by
    unfold clientEmailPresent at hc
    cases hsel : selectedClientOf f.client_id clients with
    | none => rw [hsel] at hc; simp at hc
    | some c =>
        rw [hsel] at hc
        exact ⟨c, rfl, hc⟩
  obtain ⟨em, hem⟩ := Option.isSome_iff_exists.mp hcem
  have hfields := insertEstimateItemsDoc_fields
    (estimateItemRowsFrom est0.id newItemIdBase 0 formItems)
    (estimateAfterDeleteItems (estimateAfterUpdate est0 f formItems saveStatus true) oldItems)
    []
  have hdel := estimateAfterDeleteItems_fields
    (estimateAfterUpdate est0 f formItems saveStatus true) oldItems
  have hitems := insertEstimateItemsDoc_items
    (estimateItemRowsFrom est0.id newItemIdBase 0 formItems)
    (estimateAfterDeleteItems (estimateAfterUpdate est0 f formItems saveStatus true) oldItems)
    []
  refine ⟨?_, ?_, ?_, ?_, ?_, ?_, ?_, ?_, ?_, ?_⟩
  · rw [hred false, estimateSavePipeline_sendTrue]
    dsimp only
    rw [hsel, sendEstimateAction_fst_fail _ c em hem, hfields.1, hdel.1]
    rfl
  · rw [hred false, estimateSavePipeline_sendTrue]
    dsimp only
    rw [hsel, sendEstimateAction_fst_fail _ c em hem, hfields.2.1, hdel.2.1]
    rfl
  · rw [hred false, estimateSavePipeline_sendTrue]
    dsimp only
    rw [hsel, sendEstimateAction_fst_fail _ c em hem, hfields.2.2.1, hdel.2.2.1]
    rfl
  · rw [hred false, estimateSavePipeline_sendTrue]
    dsimp only
    rw [hsel, sendEstimateAction_fst_fail _ c em hem, hfields.2.2.2.1, hdel.2.2.2.1]
    rfl
  · rw [hred false, estimateSavePipeline_sendTrue]
    dsimp only
    rw [hsel, sendEstimateAction_fst_fail _ c em hem, hfields.2.2.2.2.1, hdel.2.2.2.2.1]
    rfl
  · rw [hred false, estimateSavePipeline_sendTrue]
    dsimp only
    rw [hsel, sendEstimateAction_fst_fail _ c em hem, hfields.2.2.2.2.2.1, hdel.2.2.2.2.2.1]
    rfl
  · rw [hred false, estimateSavePipeline_sendTrue]
    dsimp only
    rw [hsel, sendEstimateAction_fst_fail _ c em hem, hfields.2.2.2.2.2.2.1,
      hdel.2.2.2.2.2.2]
    rfl
  · rw [hred false, estimateSavePipeline_sendTrue]
    dsimp only
    rw [hitems]
    simp
  · rw [hred true, estimateSavePipeline_sendTrue]
    dsimp only
    rw [hsel, sendEstimateAction_fst_ok _ c em hem]
  · rw [hred true, estimateSavePipeline_sendTrue]
    dsimp only
    rw [hitems]
    simp

/-- Concrete form fields of the save-and-send witness scenario. -/
def formFieldsC5 : EstimateFormFields :=
  { client_id := some 5, estimate_number := "EST-000001", title := "Roof repair",
    description := "", issue_date := 20000, valid_until := none, tax_rate := 5,
    notes := "", job_site_address := "" }

/-- Concrete replacement line items of the witness scenario. -/
def formItemsC5 : List FormItem :=
  [{ id := "li-1", description := "Labor", quantity := 2, unit := "hr", unit_price := 80 }]

theorem C5_send_failure_isolation_witness :
    sendFailureIsolationOk estRowA [itemRow10] [clientConvC2] formFieldsC5 formItemsC5
      EstimateStatus.draft 500 :=
  C5_send_failure_isolation estRowA [itemRow10] [clientConvC2] formFieldsC5 formItemsC5
    EstimateStatus.draft 500 (by decide) (by decide) (by decide) (by decide)
